import Mathlib

/-!
Verification of the metarmap core (METAR parser, classifier, registry, animation engine)

Shallow embedding of the core of `metarmap.ino`:
* strings are `List Char`; C scanning loops become structurally recursive
  functions (a fuel parameter bounds loops whose pointer advances by at least
  one character per iteration; the top-level fuel (length + 1) always exceeds
  the possible number of iterations, so the fuel never runs out);
* C `float` values are modelled as exact rationals (`ℚ`);
* "absent" fields are `Option`s (the code tracks presence in a flag bitmask);
* `millis()` timestamps are naturals; `random(0, 100)` is an oracle argument
  `r` ranging over `[0, 100)`.
-/

namespace Metarmap

/-! ## Character and string utilities (models of ctype/string.h behaviour) -/

/-- Model of `isspace` for the characters that can occur in report lines. -/
def isSpaceB (c : Char) : Bool :=
  c == ' ' || c == '\t' || c == '\n' || c == '\r'

/-- Model of Arduino `String::trim` (strip leading and trailing whitespace). -/
def trimChars (l : List Char) : List Char :=
  ((l.dropWhile isSpaceB).reverse.dropWhile isSpaceB).reverse

/-- Numeric value of a decimal digit character. -/
def digitVal (c : Char) : ℕ := c.toNat - 48

/-- Value of a string of decimal digit characters (model of `atoi` on an
all-digit string). -/
def digitsVal (l : List Char) : ℕ :=
  l.foldl (fun a c => a * 10 + digitVal c) 0

/-! Exact rational arithmetic, implemented through `mkRat` so that concrete
values reduce inside the kernel (the field operations of `ℚ` are
`@[irreducible]`); `qOfNat_eq`, `qAdd_eq`, `qMul_eq` and `qDiv_eq` below prove
them equal to the cast and the field operations. -/

/-- The rational `n / 1` (kernel-computable form of the cast `ℕ → ℚ`). -/
def qOfNat (n : ℕ) : ℚ := mkRat n 1

/-- Kernel-computable addition on `ℚ`. -/
def qAdd (a b : ℚ) : ℚ := mkRat (a.num * b.den + b.num * a.den) (a.den * b.den)

/-- Kernel-computable multiplication on `ℚ`. -/
def qMul (a b : ℚ) : ℚ := mkRat (a.num * b.num) (a.den * b.den)

/-- Kernel-computable division on `ℚ` (division by zero yields 0, as in the
field). -/
def qDiv (a b : ℚ) : ℚ :=
  if 0 ≤ b.num then mkRat (a.num * b.den) (a.den * b.num.natAbs)
  else mkRat (-(a.num * b.den)) (a.den * b.num.natAbs)

/-- Model of `atof` / Arduino `String::toFloat`: optional leading whitespace
and sign, then digits, then an optional fractional part; trailing junk is
ignored; an unparseable string yields `0`. Exponents never occur in the
scanned tokens and are not modelled. -/
def toFloatQ (s : List Char) : ℚ :=
  let s1 := s.dropWhile isSpaceB
  let sign : ℚ := if s1.head? = some '-' then mkRat (-1) 1 else mkRat 1 1
  let s2 := if s1.head? = some '-' || s1.head? = some '+' then s1.drop 1 else s1
  let ds := s2.takeWhile Char.isDigit
  let rest := s2.drop ds.length
  let ip : ℚ := qOfNat (digitsVal ds)
  let fp : ℚ :=
    if rest.head? = some '.' then
      let fs := (rest.drop 1).takeWhile Char.isDigit
      mkRat (digitsVal fs) (10 ^ fs.length)
    else 0
  qMul sign (qAdd ip fp)

/-- First index at which `pat` occurs as a contiguous substring (model of
`strstr`, returning an index instead of a pointer). -/
def findSub (pat : List Char) : List Char → Option ℕ
  | [] => if pat = [] then some 0 else none
  | c :: rest =>
    if pat.isPrefixOf (c :: rest) then some 0
    else (findSub pat rest).map (· + 1)

/-- Index reached after skipping spaces forward from `j`
(model of `while (*p == ' ') p++`). -/
def skipSpacesIdx (l : List Char) (j : ℕ) : ℕ :=
  j + ((l.drop j).takeWhile (· == ' ')).length

/-! ## Flight-category classifier (`MetarParser::deriveFlightCategory`) -/

/-- `MetarParser::deriveFlightCategory`, transcribed with the thresholds
`LIFR_CEILING = 500`, `IFR_CEILING = 1000`, `MVFR_CEILING = 3000`,
`LIFR_VISIBILITY = 1.0`, `IFR_VISIBILITY = 3.0`, `MVFR_VISIBILITY = 5.0`.
A value `0` of either argument means the field was absent. -/
def deriveFlightCategory (visibility : ℚ) (ceiling : ℤ) : String :=
  if (0 < ceiling ∧ ceiling < 500) ∨ (0 < visibility ∧ visibility < 1) then
    "LIFR"
  else if (0 < ceiling ∧ 500 ≤ ceiling ∧ ceiling < 1000) ∨
      (0 < visibility ∧ 1 ≤ visibility ∧ visibility < 3) then
    "IFR"
  else if (0 < ceiling ∧ 1000 ≤ ceiling ∧ ceiling ≤ 3000) ∨
      (0 < visibility ∧ 3 ≤ visibility ∧ visibility < 5) then
    "MVFR"
  else
    "VFR"

/-- The spec's piecewise reference classifier, written from the spec's words:
LIFR if (0<ceiling<500) or (0<visibility<1.0); IFR if (500≤ceiling<1000) or
(1.0≤visibility<3.0); MVFR if (1000≤ceiling≤3000) or (3.0≤visibility<5.0);
VFR otherwise. -/
def specFlightCategory (visibility : ℚ) (ceiling : ℤ) : String :=
  if (0 < ceiling ∧ ceiling < 500) ∨ (0 < visibility ∧ visibility < 1) then
    "LIFR"
  else if (500 ≤ ceiling ∧ ceiling < 1000) ∨ (1 ≤ visibility ∧ visibility < 3) then
    "IFR"
  else if (1000 ≤ ceiling ∧ ceiling ≤ 3000) ∨ (3 ≤ visibility ∧ visibility < 5) then
    "MVFR"
  else
    "VFR"

/-- The four flight categories, ordered by severity. -/
inductive FCat
  | vfr | mvfr | ifr | lifr
deriving DecidableEq

/-- Severity rank of a category (higher is more severe). -/
def FCat.sev : FCat → ℕ
  | .vfr => 0
  | .mvfr => 1
  | .ifr => 2
  | .lifr => 3

/-- Display string of a category. -/
def FCat.str : FCat → String
  | .vfr => "VFR"
  | .mvfr => "MVFR"
  | .ifr => "IFR"
  | .lifr => "LIFR"

/-- The more severe of two categories. -/
def moreSevere (a b : FCat) : FCat :=
  if b.sev ≤ a.sev then a else b

/-- Category determined by the ceiling alone (spec's independent evaluation;
`0` means absent). -/
def catOfCeiling (c : ℤ) : FCat :=
  if 0 < c ∧ c < 500 then .lifr
  else if 500 ≤ c ∧ c < 1000 then .ifr
  else if 1000 ≤ c ∧ c ≤ 3000 then .mvfr
  else .vfr

/-- Category determined by the visibility alone (spec's independent
evaluation; `0` means absent). -/
def catOfVis (v : ℚ) : FCat :=
  if 0 < v ∧ v < 1 then .lifr
  else if 1 ≤ v ∧ v < 3 then .ifr
  else if 3 ≤ v ∧ v < 5 then .mvfr
  else .vfr

/-! ## Visibility (`MetarParser::parseVisibility` and the extraction in
`MetarParser::parse`) -/

/-- Fuelled body of `MetarParser::parseVisibility`. The C function recurses on
`vis.substring(spacePos + 1)`, which is at least two characters shorter than
its argument, so recursion depth is below the argument's length. -/
def parseVisibilityF : ℕ → List Char → ℚ
  | 0, _ => 0
  | fuel + 1, s =>
    let v := trimChars s
    let slashPos := (findSub ['/'] v).getD 0
    let spacePos := (findSub [' '] v).getD 0
    if v.getLast? = some '+' then
      toFloatQ v.dropLast
    else if 0 < slashPos ∧ findSub [' '] v = none then
      let num := toFloatQ (v.take slashPos)
      let denom := toFloatQ (v.drop (slashPos + 1))
      if 0 < denom then qDiv num denom else 0
    else if 0 < spacePos then
      qAdd (toFloatQ (v.take spacePos)) (parseVisibilityF fuel (v.drop (spacePos + 1)))
    else
      toFloatQ v

/-- `MetarParser::parseVisibility` on a token string: "3/4" parses as a
fraction, "1 1/2" as whole plus a recursively parsed fraction, a trailing '+'
is stripped and the rest parsed with `toFloat`. -/
def parseVisibility (s : List Char) : ℚ :=
  parseVisibilityF (s.length + 1) s

/-- Backward scan of the visibility extraction in `MetarParser::parse`:
starting at `j`, step left while the previous character is a digit, '/', ' '
or '+' (model of `while (visStart > line && set(*(visStart-1))) visStart--`). -/
def scanBack (l : List Char) : ℕ → ℕ
  | 0 => 0
  | j + 1 =>
    match l.get? j with
    | some c =>
      if c.isDigit || c == '/' || c == ' ' || c == '+' then scanBack l j
      else j + 1
    | none => j + 1

/-- The visibility token cut out by `MetarParser::parse`: locate the first
"SM", require it strictly after the first "KT" and not at the line start, scan
backward over digits/'/'/ '/'+' ', clamp at two characters past "KT" (then
skip spaces), and take at most 15 characters up to "SM". -/
def visTokenIdx (l : List Char) : Option (List Char) :=
  match findSub ['K', 'T'] l, findSub ['S', 'M'] l with
  | some kt, some sm =>
    if 0 < sm ∧ kt < sm then
      let j0 := scanBack l (sm - 1)
      let j1 := if j0 < kt + 2 then skipSpacesIdx l (kt + 2) else j0
      if j1 < sm then
        some ((l.drop j1).take (min (sm - j1) 15))
      else none
    else none
  | _, _ => none

/-- Visibility extraction in `MetarParser::parse`: the cut-out token is parsed
with `parseVisibility` unless it begins with 'R' (runway-visual-range guard),
in which case visibility is left absent. -/
def extractVisibility (l : List Char) : Option ℚ :=
  match visTokenIdx l with
  | some t => if t.head? = some 'R' then none else some (parseVisibility t)
  | none => none

/-! ## Cloud layers (`MetarParser::parseCloudConditions`) -/

/-- A parsed cloud layer: coverage code, height in hundreds of feet, and
convective modifier ("CB", "TCU" or empty). -/
structure CloudLayerM where
  coverage : List Char
  height : ℕ
  type : List Char
deriving DecidableEq

/-- The coverage codes scanned for, in source order. -/
def cloudCodes : List (List Char) :=
  [['S','K','C'], ['C','L','R'], ['F','E','W'], ['S','C','T'],
   ['B','K','N'], ['O','V','C'], ['V','V']]

/-- First coverage code (in source order) that is a prefix of `l`. -/
def matchCloudCode (l : List Char) : Option (List Char) :=
  cloudCodes.find? (fun c => c.isPrefixOf l)

/-- Fuelled body of the scanning loop of `parseCloudConditions`: skip spaces,
try to match a coverage code; "SKC"/"CLR" append a heightless layer; other
codes append a layer only when followed by three digits, optionally consuming
a "CB" or "TCU" modifier; on no match advance one character. The loop stops at
the end of the line or at 10 layers. Each iteration consumes at least one
character, so fuel `length + 1` never runs out. -/
def scanCloudsF : ℕ → List Char → List CloudLayerM → List CloudLayerM
  | 0, _, acc => acc
  | fuel + 1, pos, acc =>
    if pos = [] ∨ 10 ≤ acc.length then acc
    else
      let p := pos.dropWhile (· == ' ')
      if p = [] then acc
      else
        match matchCloudCode p with
        | none => scanCloudsF fuel (p.drop 1) acc
        | some code =>
          let rest := p.drop code.length
          if code = ['S','K','C'] ∨ code = ['C','L','R'] then
            scanCloudsF fuel rest (acc ++ [⟨code, 0, []⟩])
          else
            match rest with
            | d1 :: d2 :: d3 :: rest2 =>
              if d1.isDigit && d2.isDigit && d3.isDigit then
                let h := digitsVal [d1, d2, d3]
                if (['C','B'] : List Char).isPrefixOf rest2 then
                  scanCloudsF fuel (rest2.drop 2) (acc ++ [⟨code, h, ['C','B']⟩])
                else if (['T','C','U'] : List Char).isPrefixOf rest2 then
                  scanCloudsF fuel (rest2.drop 3) (acc ++ [⟨code, h, ['T','C','U']⟩])
                else
                  scanCloudsF fuel rest2 (acc ++ [⟨code, h, []⟩])
              else
                scanCloudsF fuel rest acc
            | _ => scanCloudsF fuel rest acc

/-- `MetarParser::parseCloudConditions`: the ordered list of parsed cloud
layers of a raw line (capped at 10). -/
def parseCloudConditions (l : List Char) : List CloudLayerM :=
  scanCloudsF (l.length + 1) l []

/-- Whether some parsed cloud layer carries the cumulonimbus modifier (the
scan calls `setThunderstorm(true)` exactly when it appends such a layer). -/
def anyCB (layers : List CloudLayerM) : Bool :=
  layers.any (fun cl => cl.type = ['C','B'])

/-! ## Thunderstorm flag from weather phenomena (`MetarParser::parse`) -/

/-- The "TS" check in `MetarParser::parse`: find the first "KT", then the
first "TS" at or after it; the flag is set when that occurrence does not begin
with "TSNO". -/
def tsFromWx (l : List Char) : Bool :=
  match findSub ['K','T'] l with
  | none => false
  | some k =>
    match findSub ['T','S'] (l.drop k) with
    | none => false
    | some t => !(['T','S','N','O'] : List Char).isPrefixOf ((l.drop k).drop t)

/-- The thunderstorm flag of a parsed observation: set by the "TS" weather
check or by a cumulonimbus cloud layer (both code paths only ever set the
flag, so the result is their disjunction). -/
def metarThunderstorm (l : List Char) : Bool :=
  tsFromWx l || anyCB (parseCloudConditions l)

/-! ## Ceiling (`MetarParser::calculateCeiling`) -/

/-- The three-digit height following the first occurrence of `pat` in `l`,
when the three characters after the occurrence are digits. -/
def heightAfter (pat : List Char) (l : List Char) : Option ℕ :=
  match findSub pat l with
  | none => none
  | some i =>
    match l.drop (i + pat.length) with
    | d1 :: d2 :: d3 :: _ =>
      if d1.isDigit && d2.isDigit && d3.isDigit then
        some (digitsVal [d1, d2, d3])
      else none
    | _ => none

/-- `MetarParser::calculateCeiling`: height after the first "BKN" (times 100,
0 if absent), replaced by the height after the first "OVC" (times 100) when
the latter is present and smaller, or when the broken value is 0. -/
def calculateCeiling (l : List Char) : ℕ :=
  let c1 := match heightAfter ['B','K','N'] l with
    | some b => b * 100
    | none => 0
  match heightAfter ['O','V','C'] l with
  | some o => if c1 = 0 ∨ o * 100 < c1 then o * 100 else c1
  | none => c1

/-! ## Observation time (`MetarParser::parseObsTime`) -/

/-- `MetarParser::parseObsTime`: skip leading spaces, skip a "METAR" prefix
(and following spaces) when present, skip the 4-character identifier and
following spaces, then accept the next 7 characters when they are six digits
followed by 'Z' or 'z' and encode day∈[1,31], hour≤23, minute≤59; the
accepted 7-character token is returned, otherwise the time is absent. -/
def parseObsTime (l : List Char) : Option (List Char) :=
  let t0 := l.dropWhile (· == ' ')
  let t1 :=
    if (['M','E','T','A','R'] : List Char).isPrefixOf t0 then
      (t0.drop 5).dropWhile (· == ' ')
    else t0
  if t1.length < 4 then none
  else
    let t2 := (t1.drop 4).dropWhile (· == ' ')
    if t2.length < 7 then none
    else
      match t2 with
      | c1 :: c2 :: c3 :: c4 :: c5 :: c6 :: c7 :: _ =>
        if c1.isDigit && c2.isDigit && c3.isDigit && c4.isDigit &&
            c5.isDigit && c6.isDigit && (c7 == 'Z' || c7 == 'z') then
          let day := digitVal c1 * 10 + digitVal c2
          let hour := digitVal c3 * 10 + digitVal c4
          let minute := digitVal c5 * 10 + digitVal c6
          if day < 1 ∨ 31 < day ∨ 23 < hour ∨ 59 < minute then none
          else some [c1, c2, c3, c4, c5, c6, c7]
        else none
      | _ => none

/-! ## Altimeter (`MetarParser::parse`, the " A" scan) -/

/-- Fuelled altimeter scan of `MetarParser::parse`: find " A"; when at least
four characters follow the 'A' and all four are digits, the value is those
digits divided by 100; otherwise resume searching just after the 'A'. Each
iteration drops at least two characters, so fuel `length + 1` never runs
out. -/
def altScanF : ℕ → List Char → Option ℚ
  | 0, _ => none
  | fuel + 1, s =>
    match findSub [' ', 'A'] s with
    | none => none
    | some i =>
      match s.drop (i + 1) with
      | _a :: d1 :: d2 :: d3 :: d4 :: _ =>
        if d1.isDigit && d2.isDigit && d3.isDigit && d4.isDigit then
          some (mkRat (digitsVal [d1, d2, d3, d4]) 100)
        else altScanF fuel (s.drop (i + 2))
      | _ => altScanF fuel (s.drop (i + 2))

/-- The altimeter extraction of `MetarParser::parse`. -/
def altScan (l : List Char) : Option ℚ :=
  altScanF (l.length + 1) l

/-! ## Wind and identifier (`MetarParser::parse`) -/

/-- Wind extraction of `MetarParser::parse`: locate the first "KT" at index
at least 5; the five characters before it give a 3-digit direction and a
2-digit speed, each accepted independently when all its characters are
digits. -/
def parseWind (l : List Char) : Option ℕ × Option ℚ :=
  match findSub ['K','T'] l with
  | none => (none, none)
  | some k =>
    if 4 < k then
      match l.drop (k - 5) with
      | a :: b :: c :: d :: e :: _ =>
        (if a.isDigit && b.isDigit && c.isDigit then
          some (digitsVal [a, b, c]) else none,
         if d.isDigit && e.isDigit then
          some (qOfNat (digitsVal [d, e])) else none)
      | _ => (none, none)
    else (none, none)

/-- Identifier extraction of `MetarParser::parse` (the line is already known
to have at least 10 characters): skip a "METAR " or "SPECI " prefix, skip
spaces, and take 4 characters when at least 4 remain, else leave it empty. -/
def parseIcaoId (l : List Char) : List Char :=
  let s :=
    if (['M','E','T','A','R',' '] : List Char).isPrefixOf l then l.drop 6
    else if (['S','P','E','C','I',' '] : List Char).isPrefixOf l then l.drop 6
    else l
  let s2 := s.dropWhile (· == ' ')
  if 4 ≤ s2.length then s2.take 4 else []

/-! ## The assembled observation (`MetarParser::parse`) -/

/-- The fields of a parsed observation that the claims depend on. `Option`
models the presence bitmask (`visib`, `wspd` etc. default to 0 in the struct
and are treated as absent when the flag is unset). -/
structure Metar where
  icaoId : List Char := []
  obsTime : Option (List Char) := none
  wdir : Option ℕ := none
  wspd : Option ℚ := none
  visib : Option ℚ := none
  altim : Option ℚ := none
  fltcat : Option String := none
  thunderstorm : Bool := false
  cloudLayers : List CloudLayerM := []
deriving DecidableEq

/-- `MetarParser::parse`: a line shorter than 10 characters yields the empty
observation; otherwise each field is extracted independently, and the flight
category is always derived from the extracted visibility (0 when absent) and
`calculateCeiling`. -/
def parse (l : List Char) : Metar :=
  if l.length < 10 then {}
  else
    { icaoId := parseIcaoId l
      obsTime := parseObsTime l
      wdir := (parseWind l).1
      wspd := (parseWind l).2
      visib := extractVisibility l
      altim := altScan l
      fltcat := some (deriveFlightCategory ((extractVisibility l).getD 0)
        (calculateCeiling l))
      thunderstorm := metarThunderstorm l
      cloudLayers := parseCloudConditions l }

/-! ## Airport registry (`AirportLED`, `WeatherAPIClient::parseWeatherData`,
`WeatherAPIClient::fetchWeatherData`) -/

/-- `METAR_STATUS`. -/
inductive MetarStatus
  | success | connectionFailure | connectionTimeout | parsingFailure | responseFailure
deriving DecidableEq

/-- An `AirportLED` slot: fixed identifier (empty = unused position), the most
recently matched observation and its validity flag. -/
structure AirportSlot where
  icaoCode : List Char
  metarData : Metar
  hasValidData : Bool
deriving DecidableEq

/-- The slot-assignment loop of `parseWeatherData` for one parsed observation:
replace the observation of the first slot whose identifier equals
`m.icaoId` and set its `hasValidData`; the `Bool` reports whether a slot was
written (the `parsedCount++` of the loop). -/
def mergeOne (m : Metar) : List AirportSlot → List AirportSlot × Bool
  | [] => ([], false)
  | a :: rest =>
    if a.icaoCode = m.icaoId then
      ({ a with metarData := m, hasValidData := true } :: rest, true)
    else
      (a :: (mergeOne m rest).1, (mergeOne m rest).2)

/-- Identifier a line contributes to the merge: the line is trimmed and
skipped unless longer than 10 characters, and the merge loop runs only when
the parsed identifier is non-empty. -/
def lineId (l : List Char) : List Char :=
  if 10 < (trimChars l).length then (parse (trimChars l)).icaoId else []

/-- Processing of one line of the batch in `parseWeatherData`. -/
def processLine (l : List Char) (airports : List AirportSlot) :
    List AirportSlot × Bool :=
  if 10 < (trimChars l).length then
    if (parse (trimChars l)).icaoId ≠ [] then
      mergeOne (parse (trimChars l)) airports
    else (airports, false)
  else (airports, false)

/-- The line loop of `parseWeatherData`, threading the slot list and the
count of matched reports. -/
def parseLinesF : List (List Char) → List AirportSlot → ℕ → ℕ × List AirportSlot
  | [], airports, n => (n, airports)
  | l :: ls, airports, n =>
    let r := processLine l airports
    parseLinesF ls r.1 (if r.2 then n + 1 else n)

/-- `WeatherAPIClient::parseWeatherData` on a batch of report lines: merge
each line into the slots, then report `SUCCESS` exactly when at least one
report matched a slot, else `PARSING_FAILURE`. -/
def parseWeatherData (lines : List (List Char)) (airports : List AirportSlot) :
    MetarStatus × List AirportSlot :=
  (if 0 < (parseLinesF lines airports 0).1 then MetarStatus.success
    else MetarStatus.parsingFailure,
   (parseLinesF lines airports 0).2)

/-- Outcome of the network transfer in `fetchRawData`. -/
inductive NetResult
  | connFail | connTimeout | respFail | ok (lines : List (List Char))

/-- `WeatherAPIClient::fetchWeatherData`: a low-heap check (reported as a
connection failure), then the network transfer, then — only on transfer
success — the parse/merge step. The slot list is returned to make the state
explicit. -/
def fetchWeatherData (heapLow : Bool) (net : NetResult)
    (airports : List AirportSlot) : MetarStatus × List AirportSlot :=
  if heapLow then (.connectionFailure, airports)
  else
    match net with
    | .connFail => (.connectionFailure, airports)
    | .connTimeout => (.connectionTimeout, airports)
    | .respFail => (.responseFailure, airports)
    | .ok lines => parseWeatherData lines airports

/-! ## LED controller (`LEDController`) -/

/-- Color constants (`LEDColors`), as 24-bit RGB values. -/
def colVFR : ℕ := 0x008000
/-- `LEDColors::MVFR` (blue). -/
def colMVFR : ℕ := 0x0000FF
/-- `LEDColors::IFR` (red). -/
def colIFR : ℕ := 0xFF0000
/-- `LEDColors::LIFR` (magenta). -/
def colLIFR : ℕ := 0xFF00FF
/-- `LEDColors::NO_DATA` (orange-red). -/
def colNoData : ℕ := 0xFF4500
/-- `LEDColors::OFF` (black). -/
def colOff : ℕ := 0x000000
/-- `LEDColors::WIND_WARNING` (amber). -/
def colWindWarning : ℕ := 0xFFC003
/-- `LEDColors::THUNDERSTORM` (white flash). -/
def colThunderstorm : ℕ := 0xFFFFFF

/-- `LEDController::getFlightCategoryColor`. -/
def getFlightCategoryColor (fltcat : String) : ℕ :=
  if fltcat = "VFR" then colVFR
  else if fltcat = "MVFR" then colMVFR
  else if fltcat = "IFR" then colIFR
  else if fltcat = "LIFR" then colLIFR
  else colNoData

/-- The settings the controller reads from the global state. -/
structure Config where
  windEnabled : Bool
  thunderstormsEnabled : Bool
  ledsEnabled : Bool
  lastFetchStatus : MetarStatus
  windThreshold : ℕ
deriving DecidableEq

/-- Mutable animation state of `LEDController`. -/
structure LedState where
  leds : List ℕ
  baseColors : List ℕ
  lastFlashTime : ℕ
  lastWindBlinkTime : ℕ
  flashState : Bool
  windBlinkState : Bool
deriving DecidableEq

/-- Per-slot color assignment of `LEDController::updateFromAirports`: off when
the display is off or the slot is empty; no-data when the slot has no valid
observation or no category; else the category color, replaced by the
wind-warning color when the wind feature is on and the wind speed exceeds the
threshold. -/
def slotBaseColor (cfg : Config) (a : AirportSlot) : ℕ :=
  if !cfg.ledsEnabled then colOff
  else if a.icaoCode = [] then colOff
  else if !a.hasValidData || a.metarData.fltcat = none then colNoData
  else if cfg.windEnabled &&
      (match a.metarData.wspd with
        | some w => decide (qOfNat cfg.windThreshold < w)
        | none => false) then colWindWarning
  else getFlightCategoryColor ((a.metarData.fltcat).getD "")

/-- The wind-blink slot condition of `LEDController::updateWindBlink`: valid
data, present wind speed above the threshold, and no thunderstorm flag. -/
def windCond (cfg : Config) (a : AirportSlot) : Bool :=
  a.hasValidData &&
    (match a.metarData.wspd with
      | some w => decide (qOfNat cfg.windThreshold < w)
      | none => false) &&
    !a.metarData.thunderstorm

/-- The per-LED loop of `updateWindBlink`: slots satisfying `windCond` are
painted with the wind-warning color ("on" phase) or off ("off" phase); all
other LEDs keep their color; LEDs beyond the airport list are untouched. -/
def windPaint (cfg : Config) (onPhase : Bool) :
    List AirportSlot → List ℕ → List ℕ
  | _, [] => []
  | [], leds => leds
  | a :: as, c :: cs =>
    (if windCond cfg a then (if onPhase then colWindWarning else colOff) else c) ::
      windPaint cfg onPhase as cs

/-- `LEDController::updateWindBlink`: under the enablement guards, every
`WIND_BLINK_INTERVAL = 1000` ms the blink phase toggles and the qualifying
LEDs are repainted. -/
def updateWindBlink (cfg : Config) (airports : List AirportSlot) (now : ℕ)
    (st : LedState) : LedState :=
  if !cfg.windEnabled then st
  else if !cfg.ledsEnabled then st
  else if cfg.lastFetchStatus ≠ .success then st
  else if 1000 ≤ now - st.lastWindBlinkTime then
    let onPhase := !st.windBlinkState
    { st with
        lastWindBlinkTime := now
        windBlinkState := onPhase
        leds := windPaint cfg onPhase airports st.leds }
  else st

/-- The thunderstorm slot condition of `LEDController::updateThunderstorms`:
valid data and an active thunderstorm flag. -/
def tsCond (a : AirportSlot) : Bool :=
  a.hasValidData && a.metarData.thunderstorm

/-- The flash loop of `updateThunderstorms`: thunderstorm slots are painted
with the flash color; other LEDs keep their color. -/
def paintTS : List AirportSlot → List ℕ → List ℕ
  | _, [] => []
  | [], leds => leds
  | a :: as, c :: cs =>
    (if tsCond a then colThunderstorm else c) :: paintTS as cs

/-- The restore loop of `updateThunderstorms`: thunderstorm slots are restored
to their stored base color; other LEDs keep their color. -/
def restoreTS : List AirportSlot → List ℕ → List ℕ → List ℕ
  | a :: as, c :: cs, b :: bs =>
    (if tsCond a then b else c) :: restoreTS as cs bs
  | _, cs, _ => cs

/-- `LEDController::updateThunderstorms`: under the enablement guards and only
when some slot has an active thunderstorm, a flash in progress is ended after
a 100 ms dwell (restoring base colors), and otherwise a new flash is
considered once 3000 ms have passed since the last transition, triggering
exactly when the random draw `r` (modelling `random(0, 100)`, a value in
`[0, 100)`) is below 20. -/
def updateThunderstorms (cfg : Config) (airports : List AirportSlot)
    (now r : ℕ) (st : LedState) : LedState :=
  if !cfg.thunderstormsEnabled then st
  else if !cfg.ledsEnabled then st
  else if cfg.lastFetchStatus ≠ .success then st
  else if !airports.any tsCond then st
  else if st.flashState then
    if 100 ≤ now - st.lastFlashTime then
      { st with
          flashState := false
          leds := restoreTS airports st.leds st.baseColors
          lastFlashTime := now }
    else st
  else if 3000 ≤ now - st.lastFlashTime then
    if r < 20 then
      { st with
          flashState := true
          leds := paintTS airports st.leds
          lastFlashTime := now }
    else st
  else st

/-! ## Claim-side reference definitions

These transcribe the *spec's words* (not the code) and are compared against
the code-derived definitions above. -/

/-- The spec claim's ceiling: 100 times the minimum height among ALL parsed
broken/overcast cloud layers, 0 when no such layer is present. -/
def specCeilingAllLayers (l : List Char) : ℕ :=
  let hs := (parseCloudConditions l).filterMap
    (fun cl =>
      if cl.coverage = ['B','K','N'] ∨ cl.coverage = ['O','V','C'] then
        some cl.height
      else none)
  100 * (hs.min?.getD 0)

/-- Split a character list into space-separated words (helper for the
claim-side thunderstorm condition). -/
def splitWords : List Char → List Char → List (List Char)
  | [], cur => [cur.reverse]
  | c :: rest, cur =>
    if c = ' ' then cur.reverse :: splitWords rest []
    else splitWords rest (c :: cur)

/-- The non-empty space-separated words of a character list. -/
def wordsOf (l : List Char) : List (List Char) :=
  (splitWords l []).filter (· ≠ [])

/-- The spec claim's thunderstorm source from weather phenomena: some "TS"
token (a word beginning with "TS") appears after the wind marker and is not
"TSNO". -/
def specTsTokenAfterKT (l : List Char) : Bool :=
  match findSub ['K','T'] l with
  | some k =>
    (wordsOf (l.drop (k + 2))).any
      (fun w => (['T','S'] : List Char).isPrefixOf w && w ≠ ['T','S','N','O'])
  | none => false

/-- The spec claim's thunderstorm flag: a non-"TSNO" "TS" token after the wind
marker, or a cumulonimbus cloud layer. -/
def specThunderstormClaim (l : List Char) : Bool :=
  specTsTokenAfterKT l || anyCB (parseCloudConditions l)

/-- Whether position `i` of `l` starts a " A" occurrence followed by exactly
four digits (a fifth digit disqualifies the match), per the spec claim's
altimeter rule. -/
def exact4At (l : List Char) (i : ℕ) : Bool :=
  (l.get? i == some ' ') && (l.get? (i + 1) == some 'A') &&
  (match l.get? (i + 2), l.get? (i + 3), l.get? (i + 4), l.get? (i + 5) with
    | some d1, some d2, some d3, some d4 =>
      d1.isDigit && d2.isDigit && d3.isDigit && d4.isDigit
    | _, _, _, _ => false) &&
  (match l.get? (i + 6) with
    | some d5 => !d5.isDigit
    | none => true)

/-- The spec claim's altimeter: the first " A" occurrence followed by exactly
four digits, value digits/100; absent when no such occurrence exists. -/
def specAltimExact (l : List Char) : Option ℚ :=
  match (List.range l.length).find? (exact4At l) with
  | some i => some (mkRat (digitsVal ((l.drop (i + 2)).take 4)) 100)
  | none => none

/-- Whether a suffix starts with " A" followed by at least four digits. -/
def altHeadCond (l : List Char) : Bool :=
  ([' ', 'A'] : List Char).isPrefixOf l &&
    (match l.drop 2 with
      | d1 :: d2 :: d3 :: d4 :: _ =>
        d1.isDigit && d2.isDigit && d3.isDigit && d4.isDigit
      | _ => false)

/-- The amended altimeter rule: scanning character by character, the value
comes from the first position where " A" is followed by (at least) four
digits. -/
def specAltimAtLeast4 : List Char → Option ℚ
  | [] => none
  | c :: rest =>
    if altHeadCond (c :: rest) = true then
      some (mkRat (digitsVal (((c :: rest).drop 2).take 4)) 100)
    else specAltimAtLeast4 rest

/-- The spec claim's observation-timestamp rule, with "the optional
report-type prefix" covering both report types the parser knows ("METAR" and
"SPECI", as the identifier extraction does): skip the prefix and the
4-character identifier, then accept a 6-digit + 'Z' token with day∈[1,31],
hour≤23, minute≤59. -/
def specObsTimeClaim (l : List Char) : Option (List Char) :=
  let t0 := l.dropWhile (· == ' ')
  let t1 :=
    if (['M','E','T','A','R'] : List Char).isPrefixOf t0 then
      (t0.drop 5).dropWhile (· == ' ')
    else if (['S','P','E','C','I'] : List Char).isPrefixOf t0 then
      (t0.drop 5).dropWhile (· == ' ')
    else t0
  let t2 := (t1.drop 4).dropWhile (· == ' ')
  match t2 with
  | c1 :: c2 :: c3 :: c4 :: c5 :: c6 :: c7 :: _ =>
    if c1.isDigit && c2.isDigit && c3.isDigit && c4.isDigit &&
        c5.isDigit && c6.isDigit && (c7 == 'Z') then
      let day := digitVal c1 * 10 + digitVal c2
      let hour := digitVal c3 * 10 + digitVal c4
      let minute := digitVal c5 * 10 + digitVal c6
      if 1 ≤ day ∧ day ≤ 31 ∧ hour ≤ 23 ∧ minute ≤ 59 then
        some [c1, c2, c3, c4, c5, c6, c7]
      else none
    else none
  | _ => none

/-- The token-extraction part of `parseObsTime` alone (no validation): skip
spaces, skip a "METAR" prefix and spaces, skip 4 identifier characters and
spaces, return the next 7 characters when they exist. -/
def obsToken (l : List Char) : Option (List Char) :=
  let t0 := l.dropWhile (· == ' ')
  let t1 :=
    if (['M','E','T','A','R'] : List Char).isPrefixOf t0 then
      (t0.drop 5).dropWhile (· == ' ')
    else t0
  if t1.length < 4 then none
  else
    let t2 := (t1.drop 4).dropWhile (· == ' ')
    if t2.length < 7 then none
    else some (t2.take 7)

/-- The validation part of `parseObsTime` alone: exactly 7 characters, six
digits then 'Z' or 'z', with day∈[1,31], hour≤23, minute≤59. -/
def validObsToken : List Char → Bool
  | [c1, c2, c3, c4, c5, c6, c7] =>
    c1.isDigit && c2.isDigit && c3.isDigit && c4.isDigit &&
    c5.isDigit && c6.isDigit && (c7 == 'Z' || c7 == 'z') &&
    !(decide (digitVal c1 * 10 + digitVal c2 < 1) ||
      decide (31 < digitVal c1 * 10 + digitVal c2) ||
      decide (23 < digitVal c3 * 10 + digitVal c4) ||
      decide (59 < digitVal c5 * 10 + digitVal c6))
  | _ => false

/-- Example configuration for concrete witnesses: all features on, fetch
succeeded, wind threshold 25 kt. -/
def exCfg : Config := ⟨true, true, true, MetarStatus.success, 25⟩

/-- Example observation with an active thunderstorm and 40 kt wind. -/
def exTsMetar : Metar :=
  { thunderstorm := true
    wspd := some (qOfNat 40)
    fltcat := some "VFR" }

/-- Example slot holding `exTsMetar`. -/
def exTsSlot : AirportSlot := ⟨"KSFO".data, exTsMetar, true⟩

/-- Example one-LED animation state (idle). -/
def exLedSt : LedState := ⟨[colVFR], [colVFR], 0, 0, false, false⟩

/-- Example one-LED animation state (mid-flash). -/
def exLedStFlash : LedState := ⟨[colThunderstorm], [colVFR], 0, 0, true, false⟩

/-! ## Theorems -/

/-- `qOfNat` is the cast `ℕ → ℚ`. -/
lemma qOfNat_eq (n : ℕ) : qOfNat n = (n : ℚ) := by
  rw [qOfNat, Rat.mkRat_eq_div]
  norm_num

/-- `qAdd` is addition on `ℚ`. -/
lemma qAdd_eq (a b : ℚ) : qAdd a b = a + b := by
  rw [qAdd, Rat.mkRat_eq_div]
  push_cast
  conv_rhs => rw [← Rat.num_div_den a, ← Rat.num_div_den b]
  have ha : ((a.den : ℚ)) ≠ 0 := by positivity
  have hb : ((b.den : ℚ)) ≠ 0 := by positivity
  field_simp

/-- `qMul` is multiplication on `ℚ`. -/
lemma qMul_eq (a b : ℚ) : qMul a b = a * b := by
  rw [qMul, Rat.mkRat_eq_div]
  push_cast
  conv_rhs => rw [← Rat.num_div_den a, ← Rat.num_div_den b]
  have ha : ((a.den : ℚ)) ≠ 0 := by positivity
  have hb : ((b.den : ℚ)) ≠ 0 := by positivity
  field_simp

/-- `qDiv` is division on `ℚ`. -/
lemma qDiv_eq (a b : ℚ) : qDiv a b = a / b := by
  rcases eq_or_ne b 0 with rfl | hb
  · simp [qDiv, Rat.zero_num, Rat.zero_den]
  · have hnum : b.num ≠ 0 := Rat.num_ne_zero.mpr hb
    have hden : ((b.den : ℚ)) ≠ 0 := by positivity
    have haden : ((a.den : ℚ)) ≠ 0 := by positivity
    have hbq : ((b.num : ℚ)) ≠ 0 := by exact_mod_cast hnum
    rw [qDiv]
    split_ifs with hs
    · rw [Rat.mkRat_eq_div]
      push_cast [Int.cast_natAbs]
      rw [abs_of_nonneg (by exact_mod_cast hs : (0 : ℚ) ≤ ((b.num : ℚ)))]
      conv_rhs => rw [← Rat.num_div_den a, ← Rat.num_div_den b]
      field_simp
    · push_neg at hs
      rw [Rat.mkRat_eq_div]
      push_cast [Int.cast_natAbs]
      rw [abs_of_nonpos (by exact_mod_cast le_of_lt hs : ((b.num : ℚ)) ≤ 0)]
      conv_rhs => rw [← Rat.num_div_den a, ← Rat.num_div_den b]
      field_simp

/-- `mkRat` written as a division of casts (used to evaluate concrete
rational constants). -/
lemma mkRat_as_div (n : ℤ) (d : ℕ) : (mkRat n d : ℚ) = (n : ℚ) / (d : ℚ) := by
  rw [Rat.mkRat_eq_div]

/-- The IFR conditions of code and spec agree (the code adds a redundant
`0 < ceiling` / `0 < visibility` guard). -/
lemma ifr_cond_iff (v : ℚ) (c : ℤ) :
    ((0 < c ∧ 500 ≤ c ∧ c < 1000) ∨ (0 < v ∧ 1 ≤ v ∧ v < 3)) ↔
      ((500 ≤ c ∧ c < 1000) ∨ (1 ≤ v ∧ v < 3)) := by
  constructor
  · rintro (⟨_, h2, h3⟩ | ⟨_, h2, h3⟩)
    · exact Or.inl ⟨h2, h3⟩
    · exact Or.inr ⟨h2, h3⟩
  · rintro (⟨h2, h3⟩ | ⟨h2, h3⟩)
    · exact Or.inl ⟨by omega, h2, h3⟩
    · exact Or.inr ⟨by linarith, h2, h3⟩

/-- The MVFR conditions of code and spec agree. -/
lemma mvfr_cond_iff (v : ℚ) (c : ℤ) :
    ((0 < c ∧ 1000 ≤ c ∧ c ≤ 3000) ∨ (0 < v ∧ 3 ≤ v ∧ v < 5)) ↔
      ((1000 ≤ c ∧ c ≤ 3000) ∨ (3 ≤ v ∧ v < 5)) := by
  constructor
  · rintro (⟨_, h2, h3⟩ | ⟨_, h2, h3⟩)
    · exact Or.inl ⟨h2, h3⟩
    · exact Or.inr ⟨h2, h3⟩
  · rintro (⟨h2, h3⟩ | ⟨h2, h3⟩)
    · exact Or.inl ⟨by omega, h2, h3⟩
    · exact Or.inr ⟨by linarith, h2, h3⟩

/-- The code classifier equals the spec's piecewise reference classifier. -/
lemma derive_eq_spec (v : ℚ) (c : ℤ) :
    deriveFlightCategory v c = specFlightCategory v c := by
  unfold deriveFlightCategory specFlightCategory
  simp only [ifr_cond_iff, mvfr_cond_iff]

set_option maxHeartbeats 1600000 in
/-- The spec's piecewise classifier equals the more-severe combination of the
two independently evaluated outcomes. -/
lemma spec_eq_moreSevere (v : ℚ) (c : ℤ) :
    specFlightCategory v c = (moreSevere (catOfCeiling c) (catOfVis v)).str := by
  by_cases hc1 : (0 < c ∧ c < 500) <;>
  by_cases hc2 : (500 ≤ c ∧ c < 1000) <;>
  by_cases hc3 : (1000 ≤ c ∧ c ≤ 3000) <;>
  by_cases hv1 : (0 < v ∧ v < 1) <;>
  by_cases hv2 : (1 ≤ v ∧ v < 3) <;>
  by_cases hv3 : (3 ≤ v ∧ v < 5) <;>
  simp [specFlightCategory, catOfCeiling, catOfVis, moreSevere, FCat.sev,
    FCat.str, hc1, hc2, hc3, hv1, hv2, hv3]

/-- C1: `MetarParser::deriveFlightCategory` equals the spec's piecewise
reference definition (value 0 = absent), equals the more severe of the two
independently evaluated outcomes, satisfies the boundary examples
(ceiling 500 with visibility 10 → IFR, ceiling 499 → LIFR, visibility
exactly 3.0 → MVFR, both absent → VFR), and is total, always returning one of
the four categories. -/
theorem C1_deriveFlightCategory_correct :
    (∀ (v : ℚ) (c : ℤ), deriveFlightCategory v c = specFlightCategory v c) ∧
    (∀ (v : ℚ) (c : ℤ),
      deriveFlightCategory v c = (moreSevere (catOfCeiling c) (catOfVis v)).str) ∧
    deriveFlightCategory 10 500 = "IFR" ∧
    deriveFlightCategory 10 499 = "LIFR" ∧
    deriveFlightCategory 3 0 = "MVFR" ∧
    deriveFlightCategory 0 0 = "VFR" ∧
    (∀ (v : ℚ) (c : ℤ), deriveFlightCategory v c = "LIFR" ∨
      deriveFlightCategory v c = "IFR" ∨ deriveFlightCategory v c = "MVFR" ∨
      deriveFlightCategory v c = "VFR") := by
  refine ⟨derive_eq_spec, ?_, by decide, by decide, by decide, by decide, ?_⟩
  · intro v c
    rw [derive_eq_spec, spec_eq_moreSevere]
  · intro v c
    unfold deriveFlightCategory
    split_ifs
    · exact Or.inl rfl
    · exact Or.inr (Or.inl rfl)
    · exact Or.inr (Or.inr (Or.inl rfl))
    · exact Or.inr (Or.inr (Or.inr rfl))

/-- C2 counterexample: on a line with two broken layers, `calculateCeiling`
returns 100 times the height of the *first* "BKN" occurrence (5000), not the
claimed minimum over all broken/overcast layers (1000). -/
theorem C2_counterexample :
    calculateCeiling ("AAAA 010000Z 00000KT BKN050 BKN010".data) = 5000 ∧
    specCeilingAllLayers ("AAAA 010000Z 00000KT BKN050 BKN010".data) = 1000 := by
  decide

/-- C2 (amended): `calculateCeiling` considers only the first "BKN" occurrence
and the first "OVC" occurrence of the line, each contributing its following
3-digit height only when three digits follow it: with no contribution the
result is 0, with one contribution it is that height times 100, and with both
(and a positive broken height) it is the minimum times 100. -/
theorem C2_calculateCeiling_firstOccurrence :
    (∀ l : List Char, heightAfter ['B','K','N'] l = none →
      heightAfter ['O','V','C'] l = none → calculateCeiling l = 0) ∧
    (∀ (l : List Char) (b : ℕ), heightAfter ['B','K','N'] l = some b →
      heightAfter ['O','V','C'] l = none → calculateCeiling l = b * 100) ∧
    (∀ (l : List Char) (o : ℕ), heightAfter ['B','K','N'] l = none →
      heightAfter ['O','V','C'] l = some o → calculateCeiling l = o * 100) ∧
    (∀ (l : List Char) (b o : ℕ), heightAfter ['B','K','N'] l = some b →
      heightAfter ['O','V','C'] l = some o → 0 < b →
      calculateCeiling l = min b o * 100) := by
  refine ⟨?_, ?_, ?_, ?_⟩
  · intro l h1 h2
    simp [calculateCeiling, h1, h2]
  · intro l b h1 h2
    simp [calculateCeiling, h1, h2]
  · intro l o h1 h2
    simp [calculateCeiling, h1, h2]
  · intro l b o h1 h2 hb
    simp only [calculateCeiling, h1, h2]
    rcases Nat.le_total b o with h | h
    · rw [min_eq_left h]
      split_ifs with hc
      · exfalso
        rcases hc with hl | ho
        · rcases Nat.mul_eq_zero.mp hl with h0 | h0 <;> omega
        · exact absurd (lt_of_mul_lt_mul_right ho (Nat.zero_le 100))
            (not_lt.mpr h)
      · rfl
    · rw [min_eq_right h]
      split_ifs with hc
      · rfl
      · push_neg at hc
        exact le_antisymm hc.2 (Nat.mul_le_mul_right 100 h)

/-- C2 witness: a line with BKN050 and OVC030 yields min(50, 30) × 100. -/
theorem C2_witness :
    calculateCeiling ("AAAA 010000Z 00000KT BKN050 OVC030".data) =
      min 50 30 * 100 :=
  C2_calculateCeiling_firstOccurrence.2.2.2
    ("AAAA 010000Z 00000KT BKN050 OVC030".data) 50 30
    (by decide) (by decide) (by decide)

/-- C4: the visibility examples hold — "3/4" parses to 0.75, "1 1/2" to 1.5,
"10" to 10.0, a trailing '+' is stripped before the numeric parse, the same
values arrive through the full extraction — and any cut-out token beginning
with 'R' leaves the visibility absent. -/
theorem C4_parseVisibility_examples :
    parseVisibility ("3/4".data) = 3 / 4 ∧
    parseVisibility ("1 1/2".data) = 3 / 2 ∧
    parseVisibility ("10".data) = 10 ∧
    parseVisibility ("6+".data) = 6 ∧
    extractVisibility ("AAAA 010000Z 00000KT 3/4SM".data) = some (3 / 4) ∧
    extractVisibility ("AAAA 010000Z 00000KT 1 1/2SM FEW015".data) = some (3 / 2) ∧
    extractVisibility ("AAAA 010000Z 00000KT 10SM FEW015".data) = some 10 ∧
    (∀ l t : List Char, visTokenIdx l = some t → t.head? = some 'R' →
      extractVisibility l = none) := by
  refine ⟨?_, ?_, by decide, by decide, ?_, ?_, by decide, ?_⟩
  · rw [show (3 / 4 : ℚ) = mkRat 3 4 by rw [mkRat_as_div]; norm_num]
    decide
  · rw [show (3 / 2 : ℚ) = mkRat 3 2 by rw [mkRat_as_div]; norm_num]
    decide
  · rw [show (3 / 4 : ℚ) = mkRat 3 4 by rw [mkRat_as_div]; norm_num]
    decide
  · rw [show (3 / 2 : ℚ) = mkRat 3 2 by rw [mkRat_as_div]; norm_num]
    decide
  · intro l t h hR
    unfold extractVisibility
    rw [h]
    simp [hR]

/-- C4 witness: on a line whose cut-out token is "R", the visibility is left
absent. -/
theorem C4_witness :
    extractVisibility ("AAAA 010000Z KTRSM".data) = none :=
  C4_parseVisibility_examples.2.2.2.2.2.2.2
    ("AAAA 010000Z KTRSM".data) ['R'] (by decide) (by decide)

/-- C5 counterexample: on "AAAA 010000Z 00000KT TSNO TSRA" the *first* "TS"
occurrence after the wind marker is "TSNO", so the code leaves the flag
unset, although a non-"TSNO" "TS" token ("TSRA") appears after the wind
marker as the claim requires. -/
theorem C5_counterexample :
    metarThunderstorm ("AAAA 010000Z 00000KT TSNO TSRA".data) = false ∧
    specThunderstormClaim ("AAAA 010000Z 00000KT TSNO TSRA".data) = true := by
  decide

/-- C5 (amended): the thunderstorm flag is set iff the *first* "TS" occurrence
at or after the first "KT" occurrence does not begin with "TSNO", or some
parsed cloud layer carries the cumulonimbus modifier; the claim's examples
hold (set for "…KT 10SM TSRA BKN020…" and "…BKN020CB…", not set for
"…TSNO…"). -/
theorem C5_thunderstorm_firstTS :
    (∀ l : List Char, metarThunderstorm l = true ↔
      ((∃ k t, findSub ['K','T'] l = some k ∧
        findSub ['T','S'] (l.drop k) = some t ∧
        ¬(['T','S','N','O'] : List Char).isPrefixOf ((l.drop k).drop t)) ∨
       anyCB (parseCloudConditions l) = true)) ∧
    metarThunderstorm ("AAAA 010000Z 28015KT 10SM TSRA BKN020".data) = true ∧
    metarThunderstorm ("AAAA 010000Z 00000KT 10SM BKN020CB".data) = true ∧
    metarThunderstorm ("AAAA 010000Z 00000KT 10SM TSNO".data) = false := by
  refine ⟨?_, by decide, by decide, by decide⟩
  intro l
  unfold metarThunderstorm tsFromWx
  rcases hk : findSub ['K','T'] l with _ | k
  · simp [hk]
  · rcases ht : findSub ['T','S'] (l.drop k) with _ | t
    · simp [hk, ht]
    · by_cases hp :
        (['T','S','N','O'] : List Char).isPrefixOf ((l.drop k).drop t) = true
      · simp [hk, ht, hp, ← List.isPrefixOf_iff_prefix]
      · simp only [Bool.not_eq_true] at hp
        simp [hk, ht, hp, ← List.isPrefixOf_iff_prefix]

/-- At the index reported by `findSub`, the pattern is a prefix of the
remaining suffix. -/
lemma findSub_isPrefixOf {pat : List Char} (s : List Char) :
    ∀ i : ℕ, findSub pat s = some i → pat.isPrefixOf (s.drop i) = true := by
  induction s with
  | nil =>
    intro i h
    rw [findSub] at h
    split_ifs at h with hp
    injection h with h'
    subst h'
    subst hp
    rfl
  | cons c rest ih =>
    intro i h
    rw [findSub] at h
    split_ifs at h with hp
    · injection h with h'
      subst h'
      rw [List.drop_zero]
      exact hp
    · rcases Option.map_eq_some'.mp h with ⟨j, hj, rfl⟩
      rw [List.drop_succ_cons]
      exact ih j hj

/-- Before the index reported by `findSub`, the pattern is not a prefix of
the remaining suffix (first-occurrence property of `strstr`). -/
lemma findSub_min {pat : List Char} (s : List Char) :
    ∀ i : ℕ, findSub pat s = some i →
      ∀ j < i, pat.isPrefixOf (s.drop j) = false := by
  induction s with
  | nil =>
    intro i h
    rw [findSub] at h
    split_ifs at h with hp
    injection h with h'
    intro j hj
    omega
  | cons c rest ih =>
    intro i h
    rw [findSub] at h
    split_ifs at h with hp
    · injection h with h'
      intro j hj
      omega
    · rcases Option.map_eq_some'.mp h with ⟨k, hk, rfl⟩
      intro j hj
      match j with
      | 0 => exact Bool.not_eq_true _ ▸ hp
      | j' + 1 =>
        rw [List.drop_succ_cons]
        exact ih k hk j' (by omega)

/-- When `findSub` reports no occurrence, the pattern is a prefix of no
suffix. -/
lemma findSub_none {pat : List Char} (hne : pat ≠ []) (s : List Char) :
    findSub pat s = none → ∀ j, pat.isPrefixOf (s.drop j) = false := by
  induction s with
  | nil =>
    intro _ j
    rw [List.drop_nil]
    cases pat with
    | nil => exact absurd rfl hne
    | cons p ps => rfl
  | cons c rest ih =>
    intro h j
    rw [findSub] at h
    split_ifs at h with hp
    match j with
    | 0 => exact Bool.not_eq_true _ ▸ hp
    | j' + 1 =>
      have hr : findSub pat rest = none := Option.map_eq_none'.mp h
      rw [List.drop_succ_cons]
      exact ih hr j'

/-- A position where " A" is not a prefix cannot satisfy the head condition
of `specAltimAtLeast4`, so the scan steps over it. -/
lemma specAltim_step {c : Char} {rest : List Char}
    (h : ([' ','A'] : List Char).isPrefixOf (c :: rest) = false) :
    specAltimAtLeast4 (c :: rest) = specAltimAtLeast4 rest := by
  rw [specAltimAtLeast4, if_neg]
  rw [altHeadCond, h]
  simp

/-- `specAltimAtLeast4` is unchanged by dropping a region with no " A"
occurrence. -/
lemma specAltim_drop :
    ∀ (i : ℕ) (s : List Char),
      (∀ j < i, ([' ','A'] : List Char).isPrefixOf (s.drop j) = false) →
      specAltimAtLeast4 s = specAltimAtLeast4 (s.drop i)
  | 0, s, _ => by rw [List.drop_zero]
  | i + 1, [], _ => by rw [List.drop_nil]
  | i + 1, c :: rest, hmin => by
    have h0 := hmin 0 (Nat.succ_pos i)
    rw [List.drop_zero] at h0
    rw [specAltim_step h0, List.drop_succ_cons]
    exact specAltim_drop i rest (fun j hj => hmin (j + 1) (by omega))

/-- The fuelled altimeter scan agrees with the character-by-character
first-match rule whenever the fuel exceeds the length. -/
lemma altScanF_eq_spec :
    ∀ (n : ℕ) (s : List Char), s.length ≤ n →
      altScanF (n + 1) s = specAltimAtLeast4 s := by
  intro n
  induction n with
  | zero =>
    intro s hs
    rw [List.length_eq_zero.mp (Nat.le_zero.mp hs)]
    rfl
  | succ m ih =>
    intro s hs
    rw [altScanF]
    cases hi : findSub [' ', 'A'] s with
    | none =>
      have hall := findSub_none (by simp) s hi
      have hstep : specAltimAtLeast4 s = specAltimAtLeast4 (s.drop s.length) :=
        specAltim_drop s.length s (fun j _ => hall j)
      rw [List.drop_length] at hstep
      rw [hstep]
      rfl
    | some i =>
      have hpre := findSub_isPrefixOf s i hi
      have hspec : specAltimAtLeast4 s = specAltimAtLeast4 (s.drop i) :=
        specAltim_drop i s (findSub_min s i hi)
      obtain ⟨u, hu⟩ : ∃ u, s.drop i = ' ' :: 'A' :: u := by
        obtain ⟨u, hu⟩ := List.isPrefixOf_iff_prefix.mp hpre
        exact ⟨u, hu.symm⟩
      have hd1 : s.drop (i + 1) = 'A' :: u := by
        have h := congrArg (List.drop 1) hu
        rw [List.drop_drop] at h
        simpa using h
      have hd2 : s.drop (i + 2) = u := by
        have h := congrArg (List.drop 2) hu
        rw [List.drop_drop] at h
        simpa using h
      have hulen : u.length + 2 ≤ s.length := by
        have h := congrArg List.length hu
        rw [List.length_drop] at h
        simp at h
        omega
      have hrec : altScanF (m + 1) u = specAltimAtLeast4 u :=
        ih u (by omega)
      simp only []
      rw [hspec, hu, hd1, hd2]
      rcases u with _ | ⟨d1, _ | ⟨d2, _ | ⟨d3, _ | ⟨d4, u4⟩⟩⟩⟩
      · have hstep : specAltimAtLeast4 [' ', 'A'] = specAltimAtLeast4 [] := by
          conv_lhs => rw [specAltimAtLeast4]
          rw [if_neg (by decide)]
          conv_lhs => rw [specAltimAtLeast4]
          rw [if_neg (by decide)]
        simp only []
        rw [hrec, hstep]
      · have hstep : specAltimAtLeast4 (' ' :: 'A' :: [d1]) =
            specAltimAtLeast4 [d1] := by
          conv_lhs => rw [specAltimAtLeast4]
          rw [if_neg (by simp [altHeadCond])]
          conv_lhs => rw [specAltimAtLeast4]
          rw [if_neg (by simp [altHeadCond, List.isPrefixOf])]
        simp only []
        rw [hrec, hstep]
      · have hstep : specAltimAtLeast4 (' ' :: 'A' :: [d1, d2]) =
            specAltimAtLeast4 [d1, d2] := by
          conv_lhs => rw [specAltimAtLeast4]
          rw [if_neg (by simp [altHeadCond])]
          conv_lhs => rw [specAltimAtLeast4]
          rw [if_neg (by simp [altHeadCond, List.isPrefixOf])]
        simp only []
        rw [hrec, hstep]
      · have hstep : specAltimAtLeast4 (' ' :: 'A' :: [d1, d2, d3]) =
            specAltimAtLeast4 [d1, d2, d3] := by
          conv_lhs => rw [specAltimAtLeast4]
          rw [if_neg (by simp [altHeadCond])]
          conv_lhs => rw [specAltimAtLeast4]
          rw [if_neg (by simp [altHeadCond, List.isPrefixOf])]
        simp only []
        rw [hrec, hstep]
      · simp only []
        by_cases hdg :
          (d1.isDigit && d2.isDigit && d3.isDigit && d4.isDigit) = true
        · rw [if_pos hdg]
          conv_rhs => rw [specAltimAtLeast4]
          rw [if_pos (by simp [altHeadCond, List.isPrefixOf, hdg])]
          rfl
        · have hstep :
              specAltimAtLeast4 (' ' :: 'A' :: d1 :: d2 :: d3 :: d4 :: u4) =
                specAltimAtLeast4 (d1 :: d2 :: d3 :: d4 :: u4) := by
            conv_lhs => rw [specAltimAtLeast4]
            rw [if_neg (by simp [altHeadCond, List.isPrefixOf, hdg])]
            conv_lhs => rw [specAltimAtLeast4]
            rw [if_neg (by simp [altHeadCond, List.isPrefixOf])]
          rw [if_neg hdg, hrec, hstep]

/-- C8 counterexample: on a line whose " A" is followed by five digits, the
code accepts the first four digits (12.34) although the claim's "exactly 4
digits" rule makes this occurrence no match and leaves the altimeter
absent. -/
theorem C8_counterexample :
    altScan ("AAAA 010000Z A12345".data) = some (1234 / 100) ∧
    specAltimExact ("AAAA 010000Z A12345".data) = none := by
  constructor
  · rw [show (1234 / 100 : ℚ) = mkRat 1234 100 by rw [mkRat_as_div]; norm_num]
    decide
  · decide

/-- C8 (amended): the altimeter is extracted from the first " A" occurrence
followed by at least four digits (a fifth digit does not disqualify it), with
value the first four digits divided by 100; " A3012" yields 30.12. -/
theorem C8_altimeter_first_atLeast4 :
    (∀ l : List Char, altScan l = specAltimAtLeast4 l) ∧
    altScan ("AAAA 010000Z 00000KT 10SM A3012".data) = some (3012 / 100) := by
  constructor
  · intro l
    exact altScanF_eq_spec l.length l (le_refl _)
  · rw [show (3012 / 100 : ℚ) = mkRat 3012 100 by rw [mkRat_as_div]; norm_num]
    decide

/-- C9 counterexample: `parseObsTime` only knows the "METAR" report-type
prefix; on a "SPECI"-prefixed line with a perfectly well-formed timestamp
token it leaves the timestamp absent, although the claim's rule (optional
report-type prefix, 4-character identifier, valid 6-digit + 'Z' token)
accepts it. -/
theorem C9_counterexample :
    parseObsTime ("SPECI KSFO 081856Z 28015KT".data) = none ∧
    specObsTimeClaim ("SPECI KSFO 081856Z 28015KT".data) =
      some ("081856Z".data) := by
  decide

/-- `parseObsTime` decomposes into its token extraction followed by its
validation. -/
lemma parseObsTime_decompose (l : List Char) :
    parseObsTime l =
      (match obsToken l with
        | some t => if validObsToken t = true then some t else none
        | none => none) := by
  simp only [parseObsTime, obsToken]
  generalize (if (['M','E','T','A','R'] : List Char).isPrefixOf
      (l.dropWhile (· == ' ')) then
      ((l.dropWhile (· == ' ')).drop 5).dropWhile (· == ' ')
    else l.dropWhile (· == ' ')) = t1
  split_ifs with h1 h2
  · rfl
  · rfl
  · generalize (t1.drop 4).dropWhile (· == ' ') = t2 at h2 ⊢
    rcases t2 with _ | ⟨c1, _ | ⟨c2, _ | ⟨c3, _ | ⟨c4, _ | ⟨c5, _ |
      ⟨c6, _ | ⟨c7, t8⟩⟩⟩⟩⟩⟩⟩
    · exact absurd (by simp) h2
    · exact absurd (by simp) h2
    · exact absurd (by simp) h2
    · exact absurd (by simp) h2
    · exact absurd (by simp) h2
    · exact absurd (by simp) h2
    · exact absurd (by simp) h2
    · simp only [List.take, validObsToken]
      split_ifs <;> simp_all
      all_goals omega

/-- C9 (amended): `parseObsTime` succeeds exactly when the 7-character token
found after skipping leading spaces, an optional "METAR" prefix (only
"METAR"; "SPECI" is not recognized here) and the 4-character identifier is
six digits followed by 'Z' or 'z' with day∈[1,31], hour≤23, minute≤59; it
reports exactly that token and touches nothing else. -/
theorem C9_parseObsTime_iff :
    ∀ (l t : List Char),
      parseObsTime l = some t ↔
        obsToken l = some t ∧ validObsToken t = true := by
  intro l t
  rw [parseObsTime_decompose]
  cases hob : obsToken l with
  | none => simp
  | some u =>
    by_cases hv : validObsToken u = true
    · simp only [hv, if_true]
      constructor
      · rintro h
        injection h with h
        subst h
        exact ⟨rfl, hv⟩
      · rintro ⟨h, _⟩
        injection h with h
        subst h
        rfl
    · simp only [hv, if_false]
      constructor
      · rintro ⟨⟩
      · rintro ⟨h, hvt⟩
        injection h with h
        subst h
        exact absurd hvt hv

/-- A slot whose identifier differs from the observation's is untouched by
the assignment loop. -/
lemma mergeOne_get_ne (m : Metar) :
    ∀ (slots : List AirportSlot) (i : ℕ) (si : AirportSlot),
      slots.get? i = some si → si.icaoCode ≠ m.icaoId →
      (mergeOne m slots).1.get? i = some si := by
  intro slots
  induction slots with
  | nil => intro i si h _; cases h
  | cons a rest ih =>
    intro i si h hne
    rw [mergeOne]
    split_ifs with ha
    · cases i with
      | zero =>
        injection h with h
        subst h
        exact absurd ha hne
      | succ j => simpa using h
    · cases i with
      | zero => simpa using h
      | succ j =>
        simp only [List.get?_cons_succ] at h ⊢
        exact ih j si h hne

/-- When no slot matches, the assignment loop changes nothing and reports no
write. -/
lemma mergeOne_no_match (m : Metar) :
    ∀ slots : List AirportSlot,
      (∀ s ∈ slots, s.icaoCode ≠ m.icaoId) → mergeOne m slots = (slots, false) := by
  intro slots
  induction slots with
  | nil => intro _; rfl
  | cons a rest ih =>
    intro h
    rw [mergeOne]
    rw [if_neg (h a (List.mem_cons_self a rest))]
    rw [ih (fun s hs => h s (List.mem_cons_of_mem a hs))]

/-- If the loop reports no write, the slots are unchanged. -/
lemma mergeOne_no_write (m : Metar) :
    ∀ slots : List AirportSlot,
      (mergeOne m slots).2 = false → (mergeOne m slots).1 = slots := by
  intro slots
  induction slots with
  | nil => intro _; rfl
  | cons a rest ih =>
    intro h
    rw [mergeOne] at h ⊢
    split_ifs at h ⊢ with ha
    all_goals simp only at h ⊢
    all_goals rw [ih h]

/-- The first matching slot receives the observation and the valid flag; all
other slots are untouched; the write is counted. -/
lemma mergeOne_first (m : Metar) :
    ∀ (slots : List AirportSlot) (i : ℕ) (si : AirportSlot),
      slots.get? i = some si → si.icaoCode = m.icaoId →
      (∀ j < i, ∀ sj, slots.get? j = some sj → sj.icaoCode ≠ m.icaoId) →
      (mergeOne m slots).1.get? i =
          some { si with metarData := m, hasValidData := true } ∧
        (mergeOne m slots).2 = true ∧
        ∀ k, k ≠ i → (mergeOne m slots).1.get? k = slots.get? k := by
  intro slots
  induction slots with
  | nil => intro i si h _ _; cases h
  | cons a rest ih =>
    intro i si h heq hmin
    rw [mergeOne]
    split_ifs with ha
    · cases i with
      | zero =>
        injection h with h
        subst h
        refine ⟨rfl, rfl, ?_⟩
        intro k hk
        cases k with
        | zero => exact absurd rfl hk
        | succ j => rfl
      | succ j =>
        exact absurd ha (hmin 0 (Nat.succ_pos j) a rfl)
    · cases i with
      | zero =>
        injection h with h
        subst h
        exact absurd heq ha
      | succ j =>
        simp only [List.get?_cons_succ] at h
        have hmin' : ∀ j' < j, ∀ sj, rest.get? j' = some sj →
            sj.icaoCode ≠ m.icaoId := by
          intro j' hj' sj hsj
          exact hmin (j' + 1) (by omega) sj (by simpa using hsj)
        obtain ⟨h1, h2, h3⟩ := ih j si h heq hmin'
        refine ⟨by simpa using h1, by simpa using h2, ?_⟩
        intro k hk
        cases k with
        | zero => rfl
        | succ k' =>
          simp only [List.get?_cons_succ]
          exact h3 k' (by omega)

/-- One batch line leaves a slot alone when the line's identifier does not
match it. -/
lemma processLine_preserve (l : List Char) (slots : List AirportSlot) (i : ℕ)
    (si : AirportSlot) (h : slots.get? i = some si)
    (hne : lineId l ≠ si.icaoCode) :
    (processLine l slots).1.get? i = some si := by
  rw [processLine]
  split_ifs with hlen hid
  · have hid' : lineId l = (parse (trimChars l)).icaoId := by
      rw [lineId, if_pos hlen]
    apply mergeOne_get_ne _ slots i si h
    rw [← hid']
    exact fun hx => hne hx.symm
  · simpa using h
  · simpa using h

/-- A `processLine` that reports no write returns the slots unchanged. -/
lemma processLine_no_write (l : List Char) (slots : List AirportSlot)
    (h : (processLine l slots).2 = false) :
    (processLine l slots).1 = slots := by
  rw [processLine] at h ⊢
  split_ifs at h ⊢ with hlen hid
  · exact mergeOne_no_write _ slots h
  · rfl
  · rfl

/-- The batch loop leaves a slot alone when no line's identifier matches
it. -/
lemma parseLinesF_preserve :
    ∀ (lines : List (List Char)) (slots : List AirportSlot) (n i : ℕ)
      (si : AirportSlot), slots.get? i = some si →
      (∀ l ∈ lines, lineId l ≠ si.icaoCode) →
      (parseLinesF lines slots n).2.get? i = some si := by
  intro lines
  induction lines with
  | nil => intro slots n i si h _; exact h
  | cons l ls ih =>
    intro slots n i si h hne
    rw [parseLinesF]
    exact ih _ _ i si
      (processLine_preserve l slots i si h (hne l (List.mem_cons_self l ls)))
      (fun l' hl' => hne l' (List.mem_cons_of_mem l hl'))

/-- The batch loop's count never decreases. -/
lemma parseLinesF_mono :
    ∀ (lines : List (List Char)) (slots : List AirportSlot) (n : ℕ),
      n ≤ (parseLinesF lines slots n).1 := by
  intro lines
  induction lines with
  | nil => intro slots n; exact le_refl n
  | cons l ls ih =>
    intro slots n
    rw [parseLinesF]
    split_ifs with hw
    · exact le_trans (by omega) (ih _ (n + 1))
    · exact ih _ n

/-- A batch whose final count equals its initial count wrote nothing. -/
lemma parseLinesF_no_write :
    ∀ (lines : List (List Char)) (slots : List AirportSlot) (n : ℕ),
      (parseLinesF lines slots n).1 = n → (parseLinesF lines slots n).2 = slots := by
  intro lines
  induction lines with
  | nil => intro slots n _; rfl
  | cons l ls ih =>
    intro slots n h
    rw [parseLinesF] at h ⊢
    split_ifs at h ⊢ with hw
    · exfalso
      have hmono := parseLinesF_mono ls (processLine l slots).1 (n + 1)
      omega
    · have hw' : (processLine l slots).2 = false := by
        cases hw2 : (processLine l slots).2 with
        | false => rfl
        | true => exact absurd hw2 hw
      rw [ih _ n h, processLine_no_write l slots hw']

/-- A line whose contributed identifier is empty (too short after trimming,
or no identifier parsed) changes nothing. -/
lemma processLine_of_lineId_nil (l : List Char) (slots : List AirportSlot)
    (h : lineId l = []) : processLine l slots = (slots, false) := by
  rw [lineId] at h
  rw [processLine]
  split_ifs with h1 h2
  · rw [if_pos h1] at h
    exact absurd h h2
  · rfl
  · rfl

/-- The batch loop never modifies a slot with an empty identifier. -/
lemma parseLinesF_empty_slot :
    ∀ (lines : List (List Char)) (slots : List AirportSlot) (n i : ℕ)
      (si : AirportSlot), slots.get? i = some si → si.icaoCode = [] →
      (parseLinesF lines slots n).2.get? i = some si := by
  intro lines
  induction lines with
  | nil => intro slots n i si h _; exact h
  | cons l ls ih =>
    intro slots n i si h hempty
    rw [parseLinesF]
    by_cases hl : lineId l = []
    · rw [processLine_of_lineId_nil l slots hl]
      simp only []
      exact ih slots _ i si h hempty
    · exact ih _ _ i si
        (processLine_preserve l slots i si h (by rw [hempty]; exact hl)) hempty

/-- C3: each parsed observation with a non-empty identifier replaces the
observation of the FIRST slot whose identifier matches exactly (setting its
valid flag) and touches no other slot; a slot matching no line of the batch
keeps its observation and flag; a slot with an empty identifier is never
modified by any batch; and an empty slot's computed color is always off. -/
theorem C3_merge_first_match :
    (∀ (l : List Char) (slots : List AirportSlot) (i : ℕ) (si : AirportSlot),
      lineId l ≠ [] → slots.get? i = some si → si.icaoCode = lineId l →
      (∀ j < i, ∀ sj, slots.get? j = some sj → sj.icaoCode ≠ lineId l) →
      (processLine l slots).1.get? i =
          some { si with metarData := parse (trimChars l), hasValidData := true } ∧
        ∀ k, k ≠ i → (processLine l slots).1.get? k = slots.get? k) ∧
    (∀ (lines : List (List Char)) (slots : List AirportSlot) (i : ℕ)
      (si : AirportSlot), slots.get? i = some si →
      (∀ l ∈ lines, lineId l ≠ si.icaoCode) →
      (parseWeatherData lines slots).2.get? i = some si) ∧
    (∀ (lines : List (List Char)) (slots : List AirportSlot) (i : ℕ)
      (si : AirportSlot), slots.get? i = some si → si.icaoCode = [] →
      (parseWeatherData lines slots).2.get? i = some si) ∧
    (∀ (cfg : Config) (a : AirportSlot), a.icaoCode = [] →
      slotBaseColor cfg a = colOff) := by
  refine ⟨?_, ?_, ?_, ?_⟩
  · intro l slots i si hne h heq hmin
    have hlen : 10 < (trimChars l).length := by
      by_contra hc
      exact hne (by rw [lineId, if_neg hc])
    have hids : lineId l = (parse (trimChars l)).icaoId := by
      rw [lineId, if_pos hlen]
    have hid : (parse (trimChars l)).icaoId ≠ [] := by
      rw [← hids]
      exact hne
    rw [processLine, if_pos hlen, if_pos hid]
    have heq' : si.icaoCode = (parse (trimChars l)).icaoId := by
      rw [heq, hids]
    have hmin' : ∀ j < i, ∀ sj, slots.get? j = some sj →
        sj.icaoCode ≠ (parse (trimChars l)).icaoId := by
      intro j hj sj hsj
      rw [← hids]
      exact hmin j hj sj hsj
    obtain ⟨h1, _, h3⟩ := mergeOne_first (parse (trimChars l)) slots i si h
      heq' hmin'
    exact ⟨h1, h3⟩
  · intro lines slots i si h hne
    rw [parseWeatherData]
    exact parseLinesF_preserve lines slots 0 i si h hne
  · intro lines slots i si h hempty
    rw [parseWeatherData]
    exact parseLinesF_empty_slot lines slots 0 i si h hempty
  · intro cfg a h
    simp [slotBaseColor, h]

/-- C3 witness: with slots KSFO, KBOS, empty and a batch naming only KSFO,
the KBOS slot keeps its (absent) observation. -/
theorem C3_witness :
    (parseWeatherData ["KSFO 081856Z 28015KT 10SM A3012".data]
        [⟨"KSFO".data, {}, false⟩, ⟨"KBOS".data, {}, false⟩,
          ⟨[], {}, false⟩]).2.get? 1 =
      some ⟨"KBOS".data, {}, false⟩ :=
  C3_merge_first_match.2.1 ["KSFO 081856Z 28015KT 10SM A3012".data]
    [⟨"KSFO".data, {}, false⟩, ⟨"KBOS".data, {}, false⟩, ⟨[], {}, false⟩]
    1 ⟨"KBOS".data, {}, false⟩ (by decide) (by decide)

/-- C10: whenever `fetchWeatherData` reports anything other than `SUCCESS`
(low heap, connection failure, connection timeout, response failure, or
parsing failure), every airport slot is exactly as it was before the call:
a write to any slot makes the parsed count positive and hence the result
`SUCCESS`. -/
theorem C10_fetch_no_partial_update :
    ∀ (heapLow : Bool) (net : NetResult) (slots : List AirportSlot),
      (fetchWeatherData heapLow net slots).1 ≠ MetarStatus.success →
      (fetchWeatherData heapLow net slots).2 = slots := by
  intro hl net slots h
  rw [fetchWeatherData.eq_def] at h ⊢
  split_ifs at h ⊢ with hh
  · rfl
  · cases net with
    | connFail => rfl
    | connTimeout => rfl
    | respFail => rfl
    | ok lines =>
      simp only [parseWeatherData] at h ⊢
      by_cases hc : 0 < (parseLinesF lines slots 0).1
      · rw [if_pos hc] at h
        exact absurd rfl h
      · exact parseLinesF_no_write lines slots 0 (by omega)

/-- C10 witness: a connection timeout leaves the slot list untouched. -/
theorem C10_witness :
    (fetchWeatherData false NetResult.connTimeout
        [⟨"KSFO".data, {}, false⟩]).2 = [⟨"KSFO".data, {}, false⟩] :=
  C10_fetch_no_partial_update false NetResult.connTimeout
    [⟨"KSFO".data, {}, false⟩] (by decide)

/-- Index-wise description of the wind-blink paint loop. -/
lemma windPaint_get (cfg : Config) (onPhase : Bool) :
    ∀ (as : List AirportSlot) (cs : List ℕ) (i : ℕ),
      (windPaint cfg onPhase as cs)[i]? =
        match as[i]? with
        | some a => (cs[i]?).map (fun c =>
            if windCond cfg a then (if onPhase then colWindWarning else colOff)
            else c)
        | none => cs[i]? := by
  intro as
  induction as with
  | nil =>
    intro cs i
    cases cs <;> cases i <;> simp [windPaint]
  | cons a as ih =>
    intro cs i
    cases cs with
    | nil =>
      cases i with
      | zero => simp [windPaint]
      | succ n =>
        simp only [windPaint, List.getElem?_nil]
        split <;> rfl
    | cons c cs =>
      cases i with
      | zero => simp [windPaint]
      | succ j => simpa [windPaint] using ih cs j

/-- Index-wise description of the thunderstorm flash paint loop. -/
lemma paintTS_get :
    ∀ (as : List AirportSlot) (cs : List ℕ) (i : ℕ),
      (paintTS as cs)[i]? =
        match as[i]? with
        | some a => (cs[i]?).map (fun c =>
            if tsCond a then colThunderstorm else c)
        | none => cs[i]? := by
  intro as
  induction as with
  | nil =>
    intro cs i
    cases cs <;> cases i <;> simp [paintTS]
  | cons a as ih =>
    intro cs i
    cases cs with
    | nil =>
      cases i with
      | zero => simp [paintTS]
      | succ n =>
        simp only [paintTS, List.getElem?_nil]
        split <;> rfl
    | cons c cs =>
      cases i with
      | zero => simp [paintTS]
      | succ j => simpa [paintTS] using ih cs j

/-- Index-wise description of the thunderstorm restore loop. -/
lemma restoreTS_get :
    ∀ (as : List AirportSlot) (cs bs : List ℕ) (i : ℕ) (a : AirportSlot)
      (c b : ℕ), as[i]? = some a → cs[i]? = some c → bs[i]? = some b →
      (restoreTS as cs bs)[i]? = some (if tsCond a then b else c) := by
  intro as
  induction as with
  | nil => intro cs bs i a c b ha _ _; cases ha
  | cons a0 as ih =>
    intro cs bs i a c b ha hc hb
    cases cs with
    | nil => cases hc
    | cons c0 cs =>
      cases bs with
      | nil => cases hb
      | cons b0 bs =>
        cases i with
        | zero =>
          simp only [List.getElem?_cons_zero] at ha hc hb
          injection ha with ha
          injection hc with hc
          injection hb with hb
          subst ha
          subst hc
          subst hb
          simp [restoreTS]
        | succ j =>
          simp only [List.getElem?_cons_succ] at ha hc hb ⊢
          simpa [restoreTS] using ih cs bs j a c b ha hc hb

/-- C6: under the enablement guards (wind feature on, display on, last fetch
succeeded), the wind-blink overlay never touches a slot whose observation
carries the thunderstorm flag; and on each toggle (at least
`WIND_BLINK_INTERVAL` = 1000 ms since the last one) every slot with valid
data, wind speed above the threshold and no thunderstorm flag is painted the
wind-warning color in the "on" phase and off — not its resting color — in
the "off" phase. -/
theorem C6_windBlink_thunderstorm_precedence (cfg : Config)
    (airports : List AirportSlot) (now : ℕ) (st : LedState)
    (hw : cfg.windEnabled = true) (hl : cfg.ledsEnabled = true)
    (hs : cfg.lastFetchStatus = MetarStatus.success) :
    (∀ (i : ℕ) (a : AirportSlot), airports[i]? = some a →
      a.metarData.thunderstorm = true →
      (updateWindBlink cfg airports now st).leds[i]? = st.leds[i]?) ∧
    (1000 ≤ now - st.lastWindBlinkTime →
      (updateWindBlink cfg airports now st).windBlinkState =
          !st.windBlinkState ∧
        (updateWindBlink cfg airports now st).lastWindBlinkTime = now ∧
        ∀ (i : ℕ) (a : AirportSlot) (w : ℚ), airports[i]? = some a →
          a.hasValidData = true → a.metarData.wspd = some w →
          qOfNat cfg.windThreshold < w → a.metarData.thunderstorm = false →
          i < st.leds.length →
          (updateWindBlink cfg airports now st).leds[i]? =
            some (if st.windBlinkState then colOff else colWindWarning)) := by
  constructor
  · intro i a ha hts
    rw [updateWindBlink]
    simp only [hw, hl, hs, Bool.not_true, Bool.false_eq_true, if_false,
      ne_eq, not_true_eq_false]
    split_ifs with ht
    · have hcond : windCond cfg a = false := by
        simp [windCond, hts]
      simp [windPaint_get, ha, hcond]
    · rfl
  · intro ht
    rw [updateWindBlink]
    simp only [hw, hl, hs, Bool.not_true, Bool.false_eq_true, if_false,
      ne_eq, not_true_eq_false]
    rw [if_pos ht]
    refine ⟨rfl, rfl, ?_⟩
    intro i a w ha hv hwspd hgt hts hi
    obtain ⟨c, hc⟩ : ∃ c, st.leds[i]? = some c :=
      ⟨st.leds[i], List.getElem?_eq_getElem hi⟩
    have hcond : windCond cfg a = true := by
      simp [windCond, hv, hwspd, hts, hgt]
    cases hb : st.windBlinkState <;>
      simp [windPaint_get, ha, hc, hcond, hb]

/-- C6 witness: at a toggle instant, a thunderstorm-flagged slot keeps its
LED color. -/
theorem C6_witness :
    (updateWindBlink exCfg [exTsSlot] 2000 exLedSt).leds[0]? =
      exLedSt.leds[0]? :=
  (C6_windBlink_thunderstorm_precedence exCfg [exTsSlot] 2000 exLedSt
      rfl rfl rfl).1 0 exTsSlot (by decide) (by decide)

/-- C7: in `updateThunderstorms` (features on, display on, fetch succeeded,
some slot thunderstorm-active), a flash in progress ends at the first
evaluation at least 100 ms after the flash transition, returning to IDLE and
restoring every valid thunderstorm-flagged slot to its stored resting color;
earlier evaluations change nothing; from IDLE, nothing changes before
3000 ms since the last transition; after 3000 ms the flash triggers exactly
when the draw `r` of `random(0,100)` is below 20 — 20 of the 100 equally
likely draws, i.e. 20 % — and then paints every valid thunderstorm-flagged
slot with the flash color. -/
theorem C7_thunderstorm_flash (cfg : Config) (airports : List AirportSlot)
    (now r : ℕ) (st : LedState) (h1 : cfg.thunderstormsEnabled = true)
    (h2 : cfg.ledsEnabled = true)
    (h3 : cfg.lastFetchStatus = MetarStatus.success)
    (h4 : airports.any tsCond = true)
    (h5 : st.baseColors.length = st.leds.length) :
    (st.flashState = true → 100 ≤ now - st.lastFlashTime →
      (updateThunderstorms cfg airports now r st).flashState = false ∧
        (updateThunderstorms cfg airports now r st).lastFlashTime = now ∧
        ∀ (i : ℕ) (a : AirportSlot), airports[i]? = some a → tsCond a = true →
          i < st.leds.length →
          (updateThunderstorms cfg airports now r st).leds[i]? =
            st.baseColors[i]?) ∧
    (st.flashState = true → now - st.lastFlashTime < 100 →
      updateThunderstorms cfg airports now r st = st) ∧
    (st.flashState = false → now - st.lastFlashTime < 3000 →
      updateThunderstorms cfg airports now r st = st) ∧
    (st.flashState = false → 3000 ≤ now - st.lastFlashTime → 20 ≤ r →
      updateThunderstorms cfg airports now r st = st) ∧
    (st.flashState = false → 3000 ≤ now - st.lastFlashTime → r < 20 →
      (updateThunderstorms cfg airports now r st).flashState = true ∧
        (updateThunderstorms cfg airports now r st).lastFlashTime = now ∧
        ∀ (i : ℕ) (a : AirportSlot), airports[i]? = some a → tsCond a = true →
          i < st.leds.length →
          (updateThunderstorms cfg airports now r st).leds[i]? =
            some colThunderstorm) ∧
    (st.flashState = false → 3000 ≤ now - st.lastFlashTime →
      ((Finset.range 100).filter (fun q =>
        (updateThunderstorms cfg airports now q st).flashState = true)).card =
        20) := by
  have hguard : ∀ q, updateThunderstorms cfg airports now q st =
      (if st.flashState then
        (if 100 ≤ now - st.lastFlashTime then
          { st with
              flashState := false
              leds := restoreTS airports st.leds st.baseColors
              lastFlashTime := now }
        else st)
      else if 3000 ≤ now - st.lastFlashTime then
        (if q < 20 then
          { st with
              flashState := true
              leds := paintTS airports st.leds
              lastFlashTime := now }
        else st)
      else st) := by
    intro q
    rw [updateThunderstorms]
    simp [h1, h2, h3, h4]
  refine ⟨?_, ?_, ?_, ?_, ?_, ?_⟩
  · intro hf ht
    rw [hguard r, if_pos hf, if_pos ht]
    refine ⟨rfl, rfl, ?_⟩
    intro i a ha hts hi
    have hib : i < st.baseColors.length := by rw [h5]; exact hi
    obtain ⟨c, hc⟩ : ∃ c, st.leds[i]? = some c :=
      ⟨st.leds[i], List.getElem?_eq_getElem hi⟩
    obtain ⟨b, hb⟩ : ∃ b, st.baseColors[i]? = some b :=
      ⟨st.baseColors[i], List.getElem?_eq_getElem hib⟩
    rw [hb]
    simpa [hts] using restoreTS_get airports st.leds st.baseColors i a c b
      ha hc hb
  · intro hf ht
    rw [hguard r, if_pos hf, if_neg (by omega)]
  · intro hf ht
    rw [hguard r, if_neg (by rw [hf]; exact Bool.false_ne_true),
      if_neg (by omega)]
  · intro hf ht hr
    rw [hguard r, if_neg (by rw [hf]; exact Bool.false_ne_true), if_pos ht,
      if_neg (by omega)]
  · intro hf ht hr
    rw [hguard r, if_neg (by rw [hf]; exact Bool.false_ne_true), if_pos ht,
      if_pos hr]
    refine ⟨rfl, rfl, ?_⟩
    intro i a ha hts hi
    obtain ⟨c, hc⟩ : ∃ c, st.leds[i]? = some c :=
      ⟨st.leds[i], List.getElem?_eq_getElem hi⟩
    simp [paintTS_get, ha, hc, hts]
  · intro hf ht
    have hchar : ∀ q ∈ Finset.range 100,
        ((updateThunderstorms cfg airports now q st).flashState = true ↔
          q < 20) := by
      intro q _
      rw [hguard q, if_neg (by rw [hf]; exact Bool.false_ne_true), if_pos ht]
      by_cases hq : q < 20
      · simp [hq]
      · simp [hq, hf]
    rw [Finset.filter_congr hchar]
    rw [show (Finset.range 100).filter (fun q => q < 20) = Finset.range 20 by
      ext x
      simp [Finset.mem_filter, Finset.mem_range]
      omega]
    exact Finset.card_range 20

/-- C7 witness: a flash in progress for 200 ms is ended, restoring the slot's
stored base color. -/
theorem C7_witness :
    (updateThunderstorms exCfg [exTsSlot] 200 50 exLedStFlash).leds[0]? =
      exLedStFlash.baseColors[0]? :=
  ((C7_thunderstorm_flash exCfg [exTsSlot] 200 50 exLedStFlash
      rfl rfl rfl (by decide) rfl).1 rfl (by decide)).2.2 0 exTsSlot
    (by decide) (by decide) (by decide)

end Metarmap
